import Mathlib

/-
Verification of the room event-dispatch core of a real-time-communication
client SDK (`livekit/rtc/room.py`).

The Python source keeps mutable mirrors (participants, publications, tracks)
in dictionaries and mutates them in place from a single dispatch loop.  The
shallow embedding below represents every dictionary as an association list
with unique keys and every in-place mutation as a functional update:

  * `aget m k`   is the dictionary read `m[k]` / `m.get(k)` (as an `Option`);
  * `aset m k v` is the in-place mutation of the object stored at an existing
    key `k` (the entry's value is replaced, nothing is added or removed);
  * `aput m k v` is the dictionary assignment `m[k] = v` (overwrite if the
    key is present, append otherwise — Python dicts keep insertion order);
  * `adrop m k`  is `m.pop(k)`'s removal effect (the entry keyed `k` is
    dropped; with unique keys this is the single popped entry).

Exceptions (`KeyError`, `AssertionError`, `InvalidStateError`, the explicit
`raise` in `_create_remote_participant`) are represented with `Except`.  In
every transcribed handler each raise happens before the handler's first
mirror mutation, so the dispatch loop's catch-and-continue restores exactly
the pre-event state; the `Except` rollback is therefore faithful.
-/

deriving instance DecidableEq for Except

namespace LivekitRoom

/-- Dictionary read `m[k]` / `m.get(k)` on an association list. -/
def aget {α : Type} : List (String × α) → String → Option α
  | [], _ => none
  | (k0, v) :: rest, k => if k = k0 then some v else aget rest k

/-- In-place mutation of the value stored at key `k` (the Python pattern of
looking an object up in a dict and mutating its fields): the entry keyed `k`
gets the new value, all other entries are untouched, no entry is added. -/
def aset {α : Type} : List (String × α) → String → α → List (String × α)
  | [], _, _ => []
  | (k0, v0) :: rest, k, v =>
    if k = k0 then (k, v) :: aset rest k v else (k0, v0) :: aset rest k v

/-- Python dict assignment `m[k] = v`: overwrite in place when the key is
present, append at the end otherwise (dicts keep insertion order). -/
def aput {α : Type} (m : List (String × α)) (k : String) (v : α) :
    List (String × α) :=
  if (aget m k).isSome then aset m k v else m ++ [(k, v)]

/-- Removal effect of Python's `m.pop(k)`: drop the entry keyed `k`. -/
def adrop {α : Type} : List (String × α) → String → List (String × α)
  | [], _ => []
  | (k0, v0) :: rest, k =>
    if k = k0 then adrop rest k else (k0, v0) :: adrop rest k

/-- Python `dict.update(delta)`: fold the delta into the map, key by key. -/
def dictUpdate (m delta : List (String × String)) : List (String × String) :=
  delta.foldl (fun acc kv => aput acc kv.1 kv.2) m

/-- Python `dict.clear()`: the map becomes empty. -/
def dictClear (_m : List (String × String)) : List (String × String) := []

/-- `TrackKind` from the track protobuf: `KIND_UNKNOWN`, `KIND_AUDIO`,
`KIND_VIDEO` (only the audio/video values are compared against in
`room.py`). -/
inductive TrackKind
  | unknown
  | audio
  | video
deriving DecidableEq

/-- The track info carried by a `track_subscribed` event (`OwnedTrack.info`):
the fields `room.py` reads are the publication id `sid` and the `kind`. -/
structure TrackInfo where
  sid : String
  kind : TrackKind
  muted : Bool
deriving DecidableEq

/-- An `OwnedTrack`: a native handle id plus the track info. -/
structure OwnedTrackInfo where
  handleId : Nat
  info : TrackInfo
deriving DecidableEq

/-- A remote track mirror: `RemoteVideoTrack(owned_track_info)` or
`RemoteAudioTrack(owned_track_info)` as constructed in the
`track_subscribed` branch of `Room._on_room_event`. -/
inductive RemoteTrack
  | video (owned : OwnedTrackInfo)
  | audio (owned : OwnedTrackInfo)
deriving DecidableEq

/-- Modelled from the spec: the `TrackPublication` mirror class is outside
`src/`; per the data model a publication has its id, a mute flag, a
subscription flag and an optional reference to an associated track.  These
are exactly the fields `room.py` reads and writes (`publication.sid`,
`publication._info.muted`, `publication.subscribed`, `publication.track`). -/
structure RemoteTrackPublication where
  sid : String
  muted : Bool
  subscribed : Bool
  track : Option RemoteTrack
deriving DecidableEq

/-- The protobuf `ParticipantInfo`: identity (the unique key), name,
metadata and the attribute map. -/
structure ParticipantInfo where
  identity : String
  name : String
  metadata : String
  attributes : List (String × String)
deriving DecidableEq

/-- Modelled from the spec: the `Participant` mirror classes are outside
`src/`; per the data model a participant mirror holds its reported info and
a set of track publications keyed by publication id — the fields `room.py`
uses (`participant._info`, `participant.track_publications`). A freshly
created mirror starts with no publications. -/
structure ParticipantState where
  info : ParticipantInfo
  trackPublications : List (String × RemoteTrackPublication)
deriving DecidableEq

/-- The protobuf `RoomInfo` held in `Room._info`. -/
structure RoomInfo where
  sid : String
  name : String
  metadata : String
deriving DecidableEq

/-- `ConnectionState` values used by the session. -/
inductive ConnectionState
  | disconnected
  | connecting
  | connected
  | reconnecting
deriving DecidableEq

/-- The mutable state of a `Room` that the dispatch loop reads and writes:
the adopted native handle, the room info, the connection state, the local
participant mirror, the remote-participant map keyed by identity, and the
first-sid future (`none` while pending, `some s` once resolved with `s`). -/
structure Room where
  ffiHandle : Nat
  info : RoomInfo
  connectionState : ConnectionState
  localParticipant : ParticipantState
  remoteParticipants : List (String × ParticipantState)
  firstSid : Option String
deriving DecidableEq

/-- The tagged `RoomEvent` oneof, restricted to the variants the claims are
about, plus the internal end-of-stream marker `eos`. -/
inductive RoomEventMsg
  | participantConnected (info : ParticipantInfo)
  | participantDisconnected (participantIdentity : String)
  | trackSubscribed (participantIdentity : String) (track : OwnedTrackInfo)
  | trackUnsubscribed (participantIdentity : String) (trackSid : String)
  | roomMetadataChanged (metadata : String)
  | roomSidChanged (sid : String)
  | participantAttributesChanged (participantIdentity : String)
      (attributes : List (String × String))
      (changedAttributes : List (String × String))
  | eos
deriving DecidableEq

/-- One application-facing notification, i.e. one `self.emit(...)` call with
its payload values (the payloads are the post-mutation mirror values, since
the Python code emits the very objects it just mutated). -/
inductive Notification
  | participantConnected (participant : ParticipantState)
  | participantDisconnected (participant : ParticipantState)
  | trackSubscribed (track : RemoteTrack) (publication : RemoteTrackPublication)
      (participant : ParticipantState)
  | trackUnsubscribed (track : Option RemoteTrack)
      (publication : RemoteTrackPublication) (participant : ParticipantState)
  | roomMetadataChanged (oldMetadata newMetadata : String)
  | participantAttributesChanged (changedAttributes : List (String × String))
      (participant : ParticipantState)
deriving DecidableEq

/-- `Room._create_remote_participant`: raise if the identity is already
present, otherwise create the mirror and store it under its identity. -/
def createRemoteParticipant (room : Room) (info : ParticipantInfo) :
    Except String (Room × ParticipantState) :=
  if (aget room.remoteParticipants info.identity).isSome then
    Except.error "participant already exists"
  else
    let participant : ParticipantState := { info := info, trackPublications := [] }
    let remotes2 := aput room.remoteParticipants info.identity participant
    Except.ok ({ room with remoteParticipants := remotes2 }, participant)

/-- `Room._retrieve_remote_participant`. -/
def retrieveRemoteParticipant (room : Room) (identity : String) :
    Option ParticipantState :=
  aget room.remoteParticipants identity

/-- `Room._retrieve_participant`: the local participant when the identity is
non-empty and equal to the local identity, otherwise a remote lookup. -/
def retrieveParticipant (room : Room) (identity : String) :
    Option ParticipantState :=
  if identity ≠ "" ∧ identity = room.localParticipant.info.identity then
    some room.localParticipant
  else
    retrieveRemoteParticipant room identity

/-- Write-back of an in-place mutation of the participant returned by
`_retrieve_participant`: the same discrimination as the retrieval. -/
def storeParticipant (room : Room) (identity : String) (p : ParticipantState) :
    Room :=
  if identity ≠ "" ∧ identity = room.localParticipant.info.identity then
    { room with localParticipant := p }
  else
    { room with remoteParticipants := aset room.remoteParticipants identity p }

/-- The track mirror the `track_subscribed` branch creates for a given
owned-track info: a video or audio mirror, nothing for other kinds. -/
def mkRemoteTrack (owned : OwnedTrackInfo) : Option RemoteTrack :=
  match owned.info.kind with
  | TrackKind.video => some (RemoteTrack.video owned)
  | TrackKind.audio => some (RemoteTrack.audio owned)
  | TrackKind.unknown => none

/-- `Room._on_room_event`, transcribed branch by branch for the modelled
variants.  Returns the updated room and the list of emitted notifications,
or the raised exception. -/
def onRoomEvent (room : Room) (event : RoomEventMsg) :
    Except String (Room × List Notification) :=
  match event with
  | RoomEventMsg.participantConnected info =>
    match createRemoteParticipant room info with
    | Except.error e => Except.error e
    | Except.ok (room1, rparticipant) =>
      Except.ok (room1, [Notification.participantConnected rparticipant])
  | RoomEventMsg.participantDisconnected identity =>
    match aget room.remoteParticipants identity with
    | none => Except.error "KeyError"
    | some rparticipant =>
      let remotes2 := adrop room.remoteParticipants identity
      Except.ok
        ({ room with remoteParticipants := remotes2 },
          [Notification.participantDisconnected rparticipant])
  | RoomEventMsg.trackSubscribed identity ownedTrackInfo =>
    let trackInfo := ownedTrackInfo.info
    match aget room.remoteParticipants identity with
    | none => Except.error "KeyError"
    | some rparticipant =>
      match aget rparticipant.trackPublications trackInfo.sid with
      | none => Except.error "KeyError"
      | some rpublication =>
        let rpublication1 := { rpublication with subscribed := true }
        match trackInfo.kind with
        | TrackKind.video =>
          let remoteVideoTrack := RemoteTrack.video ownedTrackInfo
          let rpublication2 := { rpublication1 with track := some remoteVideoTrack }
          let pubs2 := aset rparticipant.trackPublications trackInfo.sid rpublication2
          let rparticipant2 := { rparticipant with trackPublications := pubs2 }
          let remotes2 := aset room.remoteParticipants identity rparticipant2
          Except.ok
            ({ room with remoteParticipants := remotes2 },
              [Notification.trackSubscribed remoteVideoTrack rpublication2 rparticipant2])
        | TrackKind.audio =>
          let remoteAudioTrack := RemoteTrack.audio ownedTrackInfo
          let rpublication2 := { rpublication1 with track := some remoteAudioTrack }
          let pubs2 := aset rparticipant.trackPublications trackInfo.sid rpublication2
          let rparticipant2 := { rparticipant with trackPublications := pubs2 }
          let remotes2 := aset room.remoteParticipants identity rparticipant2
          Except.ok
            ({ room with remoteParticipants := remotes2 },
              [Notification.trackSubscribed remoteAudioTrack rpublication2 rparticipant2])
        | TrackKind.unknown =>
          let pubs2 := aset rparticipant.trackPublications trackInfo.sid rpublication1
          let rparticipant2 := { rparticipant with trackPublications := pubs2 }
          let remotes2 := aset room.remoteParticipants identity rparticipant2
          Except.ok ({ room with remoteParticipants := remotes2 }, [])
  | RoomEventMsg.trackUnsubscribed identity trackSid =>
    match aget room.remoteParticipants identity with
    | none => Except.error "KeyError"
    | some rparticipant =>
      match aget rparticipant.trackPublications trackSid with
      | none => Except.error "KeyError"
      | some rpublication =>
        let track := rpublication.track
        let rpublication2 := { rpublication with track := none, subscribed := false }
        let pubs2 := aset rparticipant.trackPublications trackSid rpublication2
        let rparticipant2 := { rparticipant with trackPublications := pubs2 }
        let remotes2 := aset room.remoteParticipants identity rparticipant2
        Except.ok
          ({ room with remoteParticipants := remotes2 },
            [Notification.trackUnsubscribed track rpublication2 rparticipant2])
  | RoomEventMsg.roomMetadataChanged metadata =>
    let oldMetadata := room.info.metadata
    Except.ok
      ({ room with info := { room.info with metadata := metadata } },
        [Notification.roomMetadataChanged oldMetadata metadata])
  | RoomEventMsg.roomSidChanged sid =>
    if room.info.sid = "" then
      match room.firstSid with
      | some _ => Except.error "InvalidStateError"
      | none =>
        Except.ok
          ({ room with
              firstSid := some sid,
              info := { room.info with sid := sid } },
            [])
    else
      Except.ok ({ room with info := { room.info with sid := sid } }, [])
  | RoomEventMsg.participantAttributesChanged identity attributes changedAttributes =>
    match retrieveParticipant room identity with
    | none => Except.error "AssertionError"
    | some participant =>
      let attrs2 := dictUpdate (dictClear participant.info.attributes) attributes
      let info2 := { participant.info with attributes := attrs2 }
      let participant2 := { participant with info := info2 }
      Except.ok
        (storeParticipant room identity participant2,
          [Notification.participantAttributesChanged changedAttributes participant2])
  | RoomEventMsg.eos => Except.ok (room, [])

/-- One dispatch-loop application of an event to the mirrors: an exception
raised by `_on_room_event` is caught and logged, leaving the mirrors as they
were (every raise in the transcribed handlers happens before that handler's
first mutation). -/
def applyCaught (room : Room) (event : RoomEventMsg) :
    Room × List Notification :=
  match onRoomEvent room event with
  | Except.ok result => result
  | Except.error _ => (room, [])

/-- Sequential application of a list of events by the dispatch loop,
accumulating all emitted notifications in order. -/
def applyAll (room : Room) (events : List RoomEventMsg) :
    Room × List Notification :=
  events.foldl
    (fun acc event =>
      let step := applyCaught acc.1 event
      (step.1, acc.2 ++ step.2))
    (room, [])

/-- The reader of the `Room.sid` property: returns the stored sid when it is
non-empty, otherwise the result of awaiting the first-sid future (`none`
while the future is pending, i.e. the reader blocks). -/
def sidRead (room : Room) : Option String :=
  if room.info.sid ≠ "" then some room.info.sid else room.firstSid

/-- An `FfiEvent` as pulled from the persistent subscription: the session
handle the event is tagged with (`event.room_event.room_handle`) and the
room-event payload. -/
structure FfiEvent where
  roomHandle : Nat
  msg : RoomEventMsg
deriving DecidableEq

/-- Everything observable about one run of `Room._listen_task`: the final
mirror state, the notifications emitted in order, the events republished to
the secondary broadcast (`self._room_queue`) in order, the event payloads
handed to `_on_room_event` in order, and whether the loop broke out on
end-of-stream. -/
structure ListenResult where
  room : Room
  notifications : List Notification
  republished : List FfiEvent
  processed : List RoomEventMsg
  terminated : Bool
deriving DecidableEq

/-- The body of `Room._listen_task` for one pulled event that is not a
matching end-of-stream: if the handle matches, run `_on_room_event` with the
catch-and-log wrapper; otherwise ignore the event.  Returns the room after
the event, the notifications it emitted, and the payloads passed to
`_on_room_event` (empty on a handle mismatch). -/
def listenStep (room : Room) (event : FfiEvent) :
    Room × List Notification × List RoomEventMsg :=
  if event.roomHandle = room.ffiHandle then
    match onRoomEvent room event.msg with
    | Except.ok (room1, ns) => (room1, ns, [event.msg])
    | Except.error _ => (room, [], [event.msg])
  else
    (room, [], [])

/-- Modelled from the spec: the backpressure of `BroadcastQueue.join` (the
`_utils` module is outside `src/`) — after republishing an event the loop
waits until every secondary subscriber has acknowledged it before pulling
the next primary event.  The `acks` budget counts how many such
acknowledgement rounds the secondary subscribers will complete: each
recursive pull consumes one, and when the budget is exhausted the loop
blocks forever on `join` right after having republished the last event.
The loop itself transcribes `Room._listen_task`: pull; if the handle
matches and the event is end-of-stream, break (without republishing);
otherwise handle a matching event with errors caught and logged, then
republish the event (matching or not) and wait on `join`. -/
def listenRun : Room → List FfiEvent → Nat → ListenResult
  | room, [], _ =>
    { room := room, notifications := [], republished := [],
      processed := [], terminated := false }
  | room, event :: rest, acks =>
    if event.roomHandle = room.ffiHandle ∧ event.msg = RoomEventMsg.eos then
      { room := room, notifications := [], republished := [],
        processed := [], terminated := true }
    else
      let step := listenStep room event
      match acks with
      | 0 =>
        { room := step.1, notifications := step.2.1, republished := [event],
          processed := step.2.2, terminated := false }
      | n + 1 =>
        let tail := listenRun step.1 rest n
        { room := tail.room,
          notifications := step.2.1 ++ tail.notifications,
          republished := event :: tail.republished,
          processed := step.2.2 ++ tail.processed,
          terminated := tail.terminated }

/-- Whether the ephemeral correlation subscription and the persistent
session subscription opened by `connect` are still subscribed. -/
structure SubscriptionState where
  persistent : Bool
  ephemeral : Bool
deriving DecidableEq

/-- The fields of an `OwnedTrackPublication` that the publication mirror is
built from at connect time. -/
structure PublicationInfo where
  sid : String
  muted : Bool
deriving DecidableEq

/-- Modelled from the spec: `RemoteTrackPublication.__init__` is outside
`src/`; per the data model a publication mirror starts from its reported id
and mute flag, not subscribed, with no track attached. -/
def mkRemoteTrackPublication (info : PublicationInfo) : RemoteTrackPublication :=
  { sid := info.sid, muted := info.muted, subscribed := false, track := none }

/-- One entry of the initial roster in the connect callback: a participant
and its already-published publications. -/
structure ConnectParticipant where
  participant : ParticipantInfo
  publications : List PublicationInfo
deriving DecidableEq

/-- The correlated connect response (`cb.connect`): the error string (empty
on success), the owned room handle id, the room info, the local participant
and the initial roster. -/
structure ConnectCallback where
  error : String
  roomHandleId : Nat
  roomInfo : RoomInfo
  localParticipant : ParticipantInfo
  participants : List ConnectParticipant
deriving DecidableEq

/-- The outcome of `Room.connect`: the state of the two subscriptions it
opened, whether the dispatch loop task was started, and either the
connected room state or the raised `ConnectError` message. -/
structure ConnectResult where
  subscriptions : SubscriptionState
  dispatchStarted : Bool
  outcome : Except String Room
deriving DecidableEq

/-- The roster-replay step of `Room.connect` for one listed participant:
`_create_remote_participant` (which can raise on a duplicate identity)
followed by the in-place addition of each listed publication mirror. -/
def addInitialParticipant (room : Room) (cp : ConnectParticipant) :
    Except String Room :=
  match createRemoteParticipant room cp.participant with
  | Except.error e => Except.error e
  | Except.ok (room1, rp) =>
    let pubs2 := cp.publications.foldl
      (fun pubs pi => aput pubs pi.sid (mkRemoteTrackPublication pi))
      rp.trackPublications
    let rp2 := { rp with trackPublications := pubs2 }
    let remotes2 := aset room1.remoteParticipants rp.info.identity rp2
    Except.ok { room1 with remoteParticipants := remotes2 }

/-- `Room.connect`, from the point where the correlated connect response
`cb` has arrived.  Before the request both subscriptions were opened
(persistent session subscription first, then the ephemeral correlation
one); the `finally` block has already unsubscribed the ephemeral one.  On a
non-empty error string the persistent subscription is also unsubscribed and
`ConnectError(cb.connect.error)` is raised; otherwise the native room
handle is adopted, the room info and connection state are initialized, the
local participant mirror is built, the initial roster is replayed, and the
dispatch loop task is started. -/
def connect (cb : ConnectCallback) : ConnectResult :=
  let subs : SubscriptionState := { persistent := true, ephemeral := false }
  if cb.error ≠ "" then
    { subscriptions := { subs with persistent := false },
      dispatchStarted := false,
      outcome := Except.error cb.error }
  else
    let room0 : Room :=
      { ffiHandle := cb.roomHandleId,
        info := cb.roomInfo,
        connectionState := ConnectionState.connected,
        localParticipant := { info := cb.localParticipant, trackPublications := [] },
        remoteParticipants := [],
        firstSid := none }
    match cb.participants.foldlM addInitialParticipant room0 with
    | Except.error e =>
      { subscriptions := subs, dispatchStarted := false, outcome := Except.error e }
    | Except.ok room1 =>
      { subscriptions := subs, dispatchStarted := true, outcome := Except.ok room1 }

/-- Modelled from the spec: the replay semantics of the testable property —
`participant_connected` inserts a new mirror keyed by identity,
`participant_disconnected` removes the mirror with that identity; other
events leave the roster unchanged. -/
def specReplayStep (m : List (String × ParticipantState)) (event : RoomEventMsg) :
    List (String × ParticipantState) :=
  match event with
  | RoomEventMsg.participantConnected info =>
    aput m info.identity { info := info, trackPublications := [] }
  | RoomEventMsg.participantDisconnected identity => adrop m identity
  | _ => m

/-- Modelled from the spec: replaying a whole event sequence from an
initial roster. -/
def specReplay (m : List (String × ParticipantState))
    (events : List RoomEventMsg) : List (String × ParticipantState) :=
  events.foldl specReplayStep m

/-- Whether an event is a roster event (`participant_connected` or
`participant_disconnected`). -/
def isRosterEvent : RoomEventMsg → Bool
  | RoomEventMsg.participantConnected _ => true
  | RoomEventMsg.participantDisconnected _ => true
  | _ => false

/-- A roster-event sequence is admissible from a given roster when no
`participant_connected` event carries an identity that is present at the
moment it is applied. -/
def rosterAdmissible : List (String × ParticipantState) → List RoomEventMsg → Bool
  | _, [] => true
  | m, event :: rest =>
    match event with
    | RoomEventMsg.participantConnected info =>
      (aget m info.identity).isNone && rosterAdmissible (specReplayStep m event) rest
    | _ => rosterAdmissible (specReplayStep m event) rest

/-- Reading back the key just overwritten by an in-place update. -/
theorem aget_aset_self {α : Type} {m : List (String × α)} {k : String}
    (v : α) (h : (aget m k).isSome) : aget (aset m k v) k = some v := by
  induction m with
  | nil => simp [aget] at h
  | cons q rest ih =>
    obtain ⟨k0, v0⟩ := q
    by_cases hk : k = k0
    · simp [aget, aset, hk]
    · simp [aget, aset, hk] at h ⊢
      exact ih h

/-- An in-place update at one key leaves reads of other keys unchanged. -/
theorem aget_aset_ne {α : Type} {m : List (String × α)} {k k' : String}
    (v : α) (h : k' ≠ k) : aget (aset m k v) k' = aget m k' := by
  induction m with
  | nil => simp [aset]
  | cons q rest ih =>
    obtain ⟨k0, v0⟩ := q
    by_cases hk : k = k0
    · subst hk
      simp [aget, aset, h, ih]
    · simp [aget, aset, hk, ih]

/-- Reading an appended suffix when the key misses the prefix. -/
theorem aget_append_of_none {α : Type} {m : List (String × α)} {k : String}
    (l : List (String × α)) (h : aget m k = none) :
    aget (m ++ l) k = aget l k := by
  induction m with
  | nil => simp
  | cons q rest ih =>
    obtain ⟨k0, v0⟩ := q
    by_cases hk : k = k0
    · simp [aget, hk] at h
    · simp [aget, hk] at h ⊢
      exact ih h

/-- Reading an association list extended on the right keeps hits. -/
theorem aget_append_of_some {α : Type} {m : List (String × α)} {k : String}
    {v : α} (l : List (String × α)) (h : aget m k = some v) :
    aget (m ++ l) k = some v := by
  induction m with
  | nil => simp [aget] at h
  | cons q rest ih =>
    obtain ⟨k0, v0⟩ := q
    by_cases hk : k = k0
    · simp [aget, hk] at h ⊢
      exact h
    · simp [aget, hk] at h ⊢
      exact ih h

/-- Reading back the key just written by a dict assignment. -/
theorem aget_aput_self {α : Type} (m : List (String × α)) (k : String)
    (v : α) : aget (aput m k v) k = some v := by
  unfold aput
  by_cases h : (aget m k).isSome
  · simp [h, aget_aset_self v h]
  · rw [if_neg h]
    have hnone : aget m k = none := by
      cases hm : aget m k with
      | none => rfl
      | some w => rw [hm] at h; simp at h
    rw [aget_append_of_none _ hnone]
    simp [aget]

/-- A dict assignment at one key leaves reads of other keys unchanged. -/
theorem aget_aput_ne {α : Type} {m : List (String × α)} {k k' : String}
    (v : α) (h : k' ≠ k) : aget (aput m k v) k' = aget m k' := by
  unfold aput
  by_cases hs : (aget m k).isSome
  · simp [hs, aget_aset_ne v h]
  · rw [if_neg hs]
    cases hm : aget m k' with
    | none =>
      rw [aget_append_of_none _ hm]
      simp [aget, h]
    | some w => rw [aget_append_of_some _ hm]

/-- Popping a key that is absent leaves the dictionary unchanged. -/
theorem adrop_of_aget_none {α : Type} {m : List (String × α)} {k : String}
    (h : aget m k = none) : adrop m k = m := by
  induction m with
  | nil => simp [adrop]
  | cons q rest ih =>
    obtain ⟨k0, v0⟩ := q
    by_cases hk : k = k0
    · simp [aget, hk] at h
    · simp [aget, hk] at h
      simp [adrop, hk, ih h]

/-- A key that occurs in no entry reads as `none`. -/
theorem aget_eq_none_of_not_mem {α : Type} {m : List (String × α)}
    {k : String} (h : k ∉ m.map Prod.fst) : aget m k = none := by
  induction m with
  | nil => simp [aget]
  | cons q rest ih =>
    obtain ⟨k0, v0⟩ := q
    simp only [List.map_cons, List.mem_cons] at h
    push_neg at h
    simp [aget, h.1, ih h.2]

/-- Folding a duplicate-free delta into a map: keys of the delta read their
delta value, all other keys read the original map. -/
theorem aget_dictUpdate_nodup {l : List (String × String)}
    (m : List (String × String)) (k : String)
    (h : (l.map Prod.fst).Nodup) :
    aget (dictUpdate m l) k = (aget l k).elim (aget m k) some := by
  induction l generalizing m with
  | nil => simp [dictUpdate, aget]
  | cons q rest ih =>
    obtain ⟨k0, v0⟩ := q
    simp only [List.map_cons, List.nodup_cons] at h
    have hstep : dictUpdate m ((k0, v0) :: rest) = dictUpdate (aput m k0 v0) rest := rfl
    rw [hstep, ih (aput m k0 v0) h.2]
    by_cases hk : k = k0
    · subst hk
      have hrest : aget rest k = none := aget_eq_none_of_not_mem h.1
      simp [aget, hrest, aget_aput_self]
    · simp [aget, hk, aget_aput_ne v0 hk]

/-- The room component of `applyAll` is the plain fold of the caught
per-event application. -/
theorem applyAll_fst (room : Room) (events : List RoomEventMsg) :
    (applyAll room events).1 =
      events.foldl (fun r e => (applyCaught r e).1) room := by
  have go : ∀ (events : List RoomEventMsg) (room : Room) (ns : List Notification),
      (events.foldl
        (fun acc event =>
          let step := applyCaught acc.1 event
          (step.1, acc.2 ++ step.2))
        (room, ns)).1 =
      events.foldl (fun r e => (applyCaught r e).1) room := by
    intro events
    induction events with
    | nil => intro room ns; rfl
    | cons e rest ih => intro room ns; simpa using ih (applyCaught room e).1 _
  exact go events room []

/-- When a non-end-of-stream event is handled, the payloads handed to
`_on_room_event` never include the end-of-stream marker. -/
theorem listenStep_processed_ne_eos (room : Room) (event : FfiEvent)
    (hcond : ¬(event.roomHandle = room.ffiHandle ∧ event.msg = RoomEventMsg.eos)) :
    RoomEventMsg.eos ∉ (listenStep room event).2.2 := by
  unfold listenStep
  by_cases hmatch : event.roomHandle = room.ffiHandle
  · have hne : event.msg ≠ RoomEventMsg.eos := fun hm => hcond ⟨hmatch, hm⟩
    cases honev : onRoomEvent room event.msg with
    | ok result =>
      obtain ⟨room1, ns⟩ := result
      simp [hmatch, honev]
      exact fun hm => hne hm.symm
    | error e =>
      simp [hmatch, honev]
      exact fun hm => hne hm.symm
  · simp [hmatch]

/-- The concrete local participant of the example session. -/
def localInfo : ParticipantInfo :=
  { identity := "local", name := "", metadata := "", attributes := [] }

/-- A concrete connected session used by the witnesses: native handle 1,
no sid yet, no remote participants. -/
def room0 : Room :=
  { ffiHandle := 1,
    info := { sid := "", name := "room", metadata := "" },
    connectionState := ConnectionState.connected,
    localParticipant := { info := localInfo, trackPublications := [] },
    remoteParticipants := [],
    firstSid := none }

/-- A concrete event tagged with a different session's handle. -/
def foreignEvent : FfiEvent :=
  { roomHandle := 2, msg := RoomEventMsg.roomMetadataChanged "other session" }

/-- A concrete matching event whose handler raises (`participant_disconnected`
for an identity that is not in the remote-participant map). -/
def ghostEvent : FfiEvent :=
  { roomHandle := 1, msg := RoomEventMsg.participantDisconnected "ghost" }

/-- C1 counterexample: a pulled event whose session handle does not match is
indeed ignored by the mirrors (state unchanged, no notifications, never
handed to `_on_room_event`) — but it IS republished to the secondary
broadcast, contradicting the claim that only processed events are
republished. -/
theorem c1_counterexample :
    (listenRun room0 [foreignEvent] 1).republished = [foreignEvent] ∧
    (listenRun room0 [foreignEvent] 1).room = room0 ∧
    (listenRun room0 [foreignEvent] 1).notifications = [] ∧
    (listenRun room0 [foreignEvent] 1).processed = [] := by
  refine ⟨?_, ?_, ?_, ?_⟩ <;> decide

/-- C1 (amended): for every event pulled by the dispatch loop whose
session-handle field does not match this session's handle, the event is
ignored — no mirror is mutated, no application notification is emitted, and
the event is not handed to the event handler — but the event is still
republished to the secondary broadcast (the loop republishes every pulled
event except a matching end-of-stream) before the loop pulls further
events. -/
theorem c1_cross_session_ignored_but_republished (room : Room)
    (event : FfiEvent) (rest : List FfiEvent) (acks : Nat)
    (h : event.roomHandle ≠ room.ffiHandle) :
    listenRun room (event :: rest) (acks + 1) =
      { room := (listenRun room rest acks).room,
        notifications := (listenRun room rest acks).notifications,
        republished := event :: (listenRun room rest acks).republished,
        processed := (listenRun room rest acks).processed,
        terminated := (listenRun room rest acks).terminated } := by
  have hcond : ¬(event.roomHandle = room.ffiHandle ∧ event.msg = RoomEventMsg.eos) :=
    fun hc => h hc.1
  simp [listenRun, hcond, listenStep, h]

/-- C1 witness: the amended statement evaluated on a concrete cross-session
event in front of a concrete matching event. -/
theorem c1_witness :
    listenRun room0 [foreignEvent, ghostEvent] 1 =
      { room := (listenRun room0 [ghostEvent] 0).room,
        notifications := (listenRun room0 [ghostEvent] 0).notifications,
        republished := foreignEvent :: (listenRun room0 [ghostEvent] 0).republished,
        processed := (listenRun room0 [ghostEvent] 0).processed,
        terminated := (listenRun room0 [ghostEvent] 0).terminated } :=
  c1_cross_session_ignored_but_republished room0 foreignEvent [ghostEvent] 0 (by decide)

/-- C2: the dispatch loop republishes each pulled event to the secondary
broadcast and waits for every secondary subscriber to acknowledge it before
pulling the next primary event.  First conjunct: with an acknowledgement
budget of `acks`, the whole run is unchanged if the primary stream is
truncated after `acks + 1` events — so if some secondary subscriber never
acknowledges (`acks` rounds happen and then none), no event past the one
already delivered to it is ever pulled or processed.  Second conjunct: even
with no acknowledgement at all, the first pulled event (unless it is the
matching end-of-stream) is still republished before the loop blocks. -/
theorem c2_backpressure :
    (∀ (room : Room) (events : List FfiEvent) (acks : Nat),
        listenRun room events acks = listenRun room (events.take (acks + 1)) acks) ∧
    (∀ (room : Room) (event : FfiEvent) (rest : List FfiEvent),
        (listenRun room (event :: rest) 0).republished =
          if event.roomHandle = room.ffiHandle ∧ event.msg = RoomEventMsg.eos
          then [] else [event]) := by
  constructor
  · intro room events
    induction events generalizing room with
    | nil => intro acks; simp
    | cons event rest ih =>
      intro acks
      by_cases hcond : event.roomHandle = room.ffiHandle ∧ event.msg = RoomEventMsg.eos
      · cases acks <;> simp [listenRun, hcond]
      · cases acks with
        | zero => simp [listenRun, hcond]
        | succ n =>
          have hstep := ih (listenStep room event).1 n
          simp [listenRun, hcond, List.take_succ_cons, hstep]
  · intro room event rest
    by_cases hcond : event.roomHandle = room.ffiHandle ∧ event.msg = RoomEventMsg.eos
    · simp [listenRun, hcond]
    · simp [listenRun, hcond]

/-- C2 witness: the truncation conjunct evaluated at a concrete stream and a
concrete acknowledgement budget. -/
theorem c2_witness :
    listenRun room0 [ghostEvent, foreignEvent, ghostEvent, foreignEvent] 1 =
      listenRun room0 [ghostEvent, foreignEvent] 1 :=
  c2_backpressure.1 room0 [ghostEvent, foreignEvent, ghostEvent, foreignEvent] 1

/-- C3: error resilience and termination of the dispatch loop.  First
conjunct: if applying a matching event raises, the loop logs it, leaves the
mirrors unchanged, emits nothing for that event, still republishes it, and
carries on with the remaining events.  Second conjunct: the end-of-stream
event is never handed to the application-facing handler.  Third conjunct:
the loop only ever terminates by observing an end-of-stream event. -/
theorem c3_error_resilience :
    (∀ (room : Room) (event : FfiEvent) (rest : List FfiEvent) (acks : Nat)
        (e : String),
        event.roomHandle = room.ffiHandle →
        onRoomEvent room event.msg = Except.error e →
        listenRun room (event :: rest) (acks + 1) =
          { room := (listenRun room rest acks).room,
            notifications := (listenRun room rest acks).notifications,
            republished := event :: (listenRun room rest acks).republished,
            processed := event.msg :: (listenRun room rest acks).processed,
            terminated := (listenRun room rest acks).terminated }) ∧
    (∀ (room : Room) (events : List FfiEvent) (acks : Nat),
        RoomEventMsg.eos ∉ (listenRun room events acks).processed) ∧
    (∀ (room : Room) (events : List FfiEvent) (acks : Nat),
        (listenRun room events acks).terminated = true →
        ∃ event ∈ events, event.msg = RoomEventMsg.eos) := by
  refine ⟨?_, ?_, ?_⟩
  · intro room event rest acks e hmatch herr
    have hne : event.msg ≠ RoomEventMsg.eos := by
      intro hmsg
      rw [hmsg] at herr
      simp [onRoomEvent] at herr
    have hcond : ¬(event.roomHandle = room.ffiHandle ∧ event.msg = RoomEventMsg.eos) :=
      fun hc => hne hc.2
    simp [listenRun, hcond, listenStep, hmatch, herr, hne]
  · intro room events
    induction events generalizing room with
    | nil => intro acks; simp [listenRun]
    | cons event rest ih =>
      intro acks
      by_cases hcond : event.roomHandle = room.ffiHandle ∧ event.msg = RoomEventMsg.eos
      · cases acks <;> simp [listenRun, hcond]
      · have hstep := listenStep_processed_ne_eos room event hcond
        cases acks with
        | zero => simpa [listenRun, hcond] using hstep
        | succ n =>
          have htail := ih (listenStep room event).1 n
          simp [listenRun, hcond]
          exact ⟨fun hm => hstep hm, fun hm => htail hm⟩
  · intro room events
    induction events generalizing room with
    | nil => intro acks h; simp [listenRun] at h
    | cons event rest ih =>
      intro acks h
      by_cases hcond : event.roomHandle = room.ffiHandle ∧ event.msg = RoomEventMsg.eos
      · exact ⟨event, List.mem_cons_self event rest, hcond.2⟩
      · cases acks with
        | zero => simp [listenRun, hcond] at h
        | succ n =>
          simp only [listenRun, hcond, if_false] at h
          obtain ⟨ev, hmem, hev⟩ := ih (listenStep room event).1 n h
          exact ⟨ev, List.mem_cons_of_mem event hmem, hev⟩

/-- C3 witness: a concrete matching event whose handler raises (`KeyError`
on an unknown identity) is logged and skipped, the loop continues and the
event is still republished. -/
theorem c3_witness :
    listenRun room0 [ghostEvent] 1 =
      { room := room0, notifications := [],
        republished := [ghostEvent],
        processed := [RoomEventMsg.participantDisconnected "ghost"],
        terminated := false } := by
  have h := c3_error_resilience.1 room0 ghostEvent [] 0 "KeyError" rfl (by decide)
  simpa [listenRun] using h

/-- C4: on a connect response carrying a non-empty error string, `connect`
raises a connection error with exactly that message, both the ephemeral and
the persistent subscription are unsubscribed before the raise, and no
session state is built (no room value, no dispatch loop started). -/
theorem c4_connect_error_teardown (cb : ConnectCallback) (h : cb.error ≠ "") :
    connect cb =
      { subscriptions := { persistent := false, ephemeral := false },
        dispatchStarted := false,
        outcome := Except.error cb.error } := by
  simp [connect, h]

/-- A concrete connect response rejected by the native boundary. -/
def badConnectCallback : ConnectCallback :=
  { error := "invalid token",
    roomHandleId := 0,
    roomInfo := { sid := "", name := "", metadata := "" },
    localParticipant := localInfo,
    participants := [] }

/-- C4 witness: the `"invalid token"` response of the testable property. -/
theorem c4_witness :
    connect badConnectCallback =
      { subscriptions := { persistent := false, ephemeral := false },
        dispatchStarted := false,
        outcome := Except.error "invalid token" } :=
  c4_connect_error_teardown badConnectCallback (by decide)

/-- A concrete roster participant "alice" with one unsubscribed publication. -/
def pubT1 : RemoteTrackPublication :=
  { sid := "t1", muted := false, subscribed := false, track := none }

/-- The first reported info for identity "alice". -/
def infoA1 : ParticipantInfo :=
  { identity := "alice", name := "first", metadata := "", attributes := [] }

/-- A different reported info for the same identity "alice". -/
def infoA2 : ParticipantInfo :=
  { identity := "alice", name := "second", metadata := "", attributes := [] }

/-- Reported info for identity "bob". -/
def infoB : ParticipantInfo :=
  { identity := "bob", name := "", metadata := "", attributes := [] }

/-- The mirror for "alice" holding publication "t1". -/
def partA : ParticipantState :=
  { info := infoA1, trackPublications := [("t1", pubT1)] }

/-- The example session with "alice" in the remote-participant map. -/
def roomA : Room := { room0 with remoteParticipants := [("alice", partA)] }

/-- The example session with an already-resolved first-sid future. -/
def roomF : Room := { room0 with firstSid := some "S0" }

/-- C9: a `participant_connected` event whose identity is already present
raises before inserting, so under the loop's catch the map is unchanged and
no notification is emitted. -/
theorem c9_duplicate_connect (room : Room) (info : ParticipantInfo)
    (h : (aget room.remoteParticipants info.identity).isSome) :
    onRoomEvent room (RoomEventMsg.participantConnected info) =
      Except.error "participant already exists" ∧
    applyCaught room (RoomEventMsg.participantConnected info) = (room, []) := by
  have h1 : onRoomEvent room (RoomEventMsg.participantConnected info) =
      Except.error "participant already exists" := by
    simp [onRoomEvent, createRemoteParticipant, h]
  exact ⟨h1, by simp [applyCaught, h1]⟩

/-- C9 witness: a duplicate `participant_connected` for "alice", carrying a
different info payload, leaves the map holding the original mirror. -/
theorem c9_witness :
    onRoomEvent roomA (RoomEventMsg.participantConnected infoA2) =
      Except.error "participant already exists" ∧
    applyCaught roomA (RoomEventMsg.participantConnected infoA2) = (roomA, []) :=
  c9_duplicate_connect roomA infoA2 (by decide)

/-- C10: a `track_subscribed` event whose track kind is neither audio nor
video still marks the named publication subscribed, creates no track mirror,
leaves the publication's track reference unchanged, and emits no
notification. -/
theorem c10_unknown_kind (room : Room) (identity : String)
    (owned : OwnedTrackInfo) (rparticipant : ParticipantState)
    (rpublication : RemoteTrackPublication)
    (hp : aget room.remoteParticipants identity = some rparticipant)
    (hpub : aget rparticipant.trackPublications owned.info.sid = some rpublication)
    (ha : owned.info.kind ≠ TrackKind.audio)
    (hv : owned.info.kind ≠ TrackKind.video) :
    onRoomEvent room (RoomEventMsg.trackSubscribed identity owned) =
      Except.ok
        ({ room with remoteParticipants := aset room.remoteParticipants identity { rparticipant with trackPublications := aset rparticipant.trackPublications owned.info.sid { rpublication with subscribed := true } } },
          []) ∧
    ({ rpublication with subscribed := true } : RemoteTrackPublication).track =
      rpublication.track := by
  have hk : owned.info.kind = TrackKind.unknown := by
    cases howned : owned.info.kind
    · rfl
    · exact absurd howned ha
    · exact absurd howned hv
  exact ⟨by simp [onRoomEvent, hp, hpub, hk], rfl⟩

/-- A concrete owned track of unknown kind for publication "t1". -/
def ownedU : OwnedTrackInfo :=
  { handleId := 8, info := { sid := "t1", kind := TrackKind.unknown, muted := false } }

/-- C10 witness: an unknown-kind subscription for "alice"'s publication
"t1". -/
theorem c10_witness :
    onRoomEvent roomA (RoomEventMsg.trackSubscribed "alice" ownedU) =
      Except.ok
        ({ roomA with remoteParticipants := aset roomA.remoteParticipants "alice" { partA with trackPublications := aset partA.trackPublications ownedU.info.sid { pubT1 with subscribed := true } } },
          []) ∧
    ({ pubT1 with subscribed := true } : RemoteTrackPublication).track = pubT1.track :=
  c10_unknown_kind roomA "alice" ownedU partA pubT1 (by decide) (by decide)
    (by decide) (by decide)

/-- Writing back a mutated participant never touches the first-sid future. -/
theorem storeParticipant_firstSid (room : Room) (identity : String)
    (p : ParticipantState) :
    (storeParticipant room identity p).firstSid = room.firstSid := by
  unfold storeParticipant
  split
  · rfl
  · rfl

/-- C7 counterexample: the resolve-once guard keys on the STORED sid being
empty, not on the future being pending, so "any later `room_sid_changed`
with a different value updates the stored sid" fails on two traces.  First
trace: a first `room_sid_changed` carrying an empty sid resolves the future
with `""`, and a later event with the different value `"SID123"` calls
`set_result` on the completed future, raising `InvalidStateError`; the loop
catches it and the sid assignment is skipped.  Second trace: even after a
non-empty first sid `"S1"`, a later `room_sid_changed` carrying `""` stores
the empty sid (else-branch), so a subsequent `"X"` re-enters the guard with
a completed future, raises, and the stored sid stays `""` — the later event
with a different value does NOT update the stored sid. -/
theorem c7_counterexample :
    (applyCaught room0 (RoomEventMsg.roomSidChanged "")).1.firstSid = some "" ∧
    onRoomEvent (applyCaught room0 (RoomEventMsg.roomSidChanged "")).1
        (RoomEventMsg.roomSidChanged "SID123") = Except.error "InvalidStateError" ∧
    (applyCaught (applyCaught room0 (RoomEventMsg.roomSidChanged "")).1
        (RoomEventMsg.roomSidChanged "SID123")).1.info.sid = "" ∧
    (applyCaught (applyCaught room0 (RoomEventMsg.roomSidChanged "S1")).1
        (RoomEventMsg.roomSidChanged "")).1.info.sid = "" ∧
    onRoomEvent (applyCaught (applyCaught room0 (RoomEventMsg.roomSidChanged "S1")).1
        (RoomEventMsg.roomSidChanged "")).1
        (RoomEventMsg.roomSidChanged "X") = Except.error "InvalidStateError" ∧
    (applyCaught (applyCaught (applyCaught room0 (RoomEventMsg.roomSidChanged "S1")).1
        (RoomEventMsg.roomSidChanged "")).1
        (RoomEventMsg.roomSidChanged "X")).1.info.sid = "" := by
  refine ⟨?_, ?_, ?_, ?_, ?_, ?_⟩ <;> decide

/-- C7 (amended): the first `room_sid_changed` (stored sid empty, future
pending) resolves the pending sid future exactly once and stores the sid; a
reader awaiting the sid beforehand blocks and, when the sid is non-empty,
afterwards reads it; any later `room_sid_changed` applied while the stored
sid is non-empty updates the stored sid without touching the completed
future; a later `room_sid_changed` applied while the stored sid is empty
and the future completed attempts to re-resolve the future, raises
`InvalidStateError` (caught by the loop), and leaves the session — in
particular the stored sid — unchanged; and once the future is resolved no
event whatsoever changes its value again. -/
theorem c7_sid_once (room : Room) (s : String) (r1 : Room) (s1 : String)
    (r2 : Room) (y s2 : String) (r : Room) (x : String) (ev : RoomEventMsg)
    (hsid : room.info.sid = "") (hfut : room.firstSid = none) (hs : s ≠ "")
    (h1 : r1.info.sid ≠ "")
    (h2sid : r2.info.sid = "") (h2fut : r2.firstSid = some y)
    (hr : r.firstSid = some x) :
    sidRead room = none ∧
    applyCaught room (RoomEventMsg.roomSidChanged s) =
      ({ room with firstSid := some s, info := { room.info with sid := s } }, []) ∧
    sidRead { room with firstSid := some s, info := { room.info with sid := s } } =
      some s ∧
    applyCaught r1 (RoomEventMsg.roomSidChanged s1) =
      ({ r1 with info := { r1.info with sid := s1 } }, []) ∧
    onRoomEvent r2 (RoomEventMsg.roomSidChanged s2) =
      Except.error "InvalidStateError" ∧
    applyCaught r2 (RoomEventMsg.roomSidChanged s2) = (r2, []) ∧
    (applyCaught r ev).1.firstSid = some x := by
  have h5 : onRoomEvent r2 (RoomEventMsg.roomSidChanged s2) =
      Except.error "InvalidStateError" := by
    simp [onRoomEvent, h2sid, h2fut]
  refine ⟨?_, ?_, ?_, ?_, h5, ?_, ?_⟩
  · simp [sidRead, hsid, hfut]
  · simp [applyCaught, onRoomEvent, hsid, hfut]
  · simp [sidRead, hs]
  · simp [applyCaught, onRoomEvent, h1]
  · simp [applyCaught, h5]
  · cases ev with
    | participantConnected info =>
      by_cases hdup : (aget r.remoteParticipants info.identity).isSome
      · simp [applyCaught, onRoomEvent, createRemoteParticipant, hdup, hr]
      · simp [applyCaught, onRoomEvent, createRemoteParticipant, hdup, hr]
    | participantDisconnected identity =>
      cases hq : aget r.remoteParticipants identity <;>
        simp [applyCaught, onRoomEvent, hq, hr]
    | trackSubscribed identity owned =>
      cases hq : aget r.remoteParticipants identity with
      | none => simp [applyCaught, onRoomEvent, hq, hr]
      | some rp =>
        cases hq2 : aget rp.trackPublications owned.info.sid with
        | none => simp [applyCaught, onRoomEvent, hq, hq2, hr]
        | some pub =>
          cases hk : owned.info.kind <;>
            simp [applyCaught, onRoomEvent, hq, hq2, hk, hr]
    | trackUnsubscribed identity tsid =>
      cases hq : aget r.remoteParticipants identity with
      | none => simp [applyCaught, onRoomEvent, hq, hr]
      | some rp =>
        cases hq2 : aget rp.trackPublications tsid <;>
          simp [applyCaught, onRoomEvent, hq, hq2, hr]
    | roomMetadataChanged md => simp [applyCaught, onRoomEvent, hr]
    | roomSidChanged s2 =>
      by_cases hempty : r.info.sid = ""
      · simp [applyCaught, onRoomEvent, hempty, hr]
      · simp [applyCaught, onRoomEvent, hempty, hr]
    | participantAttributesChanged identity attrs changed =>
      cases hq : retrieveParticipant r identity with
      | none => simp [applyCaught, onRoomEvent, hq, hr]
      | some p => simp [applyCaught, onRoomEvent, hq, storeParticipant_firstSid, hr]
    | eos => simp [applyCaught, onRoomEvent, hr]

/-- The example session with its stored sid empty and its first-sid future
already resolved with the empty string. -/
def roomE : Room := { room0 with firstSid := some "" }

/-- C7 witness: a concrete non-empty first sid "S1"; a later "S2" applied
while the stored sid is the non-empty "S1"; a later "X" applied while the
stored sid is empty and the future completed; and an unrelated event
applied to a session whose future is already resolved. -/
theorem c7_witness :
    sidRead room0 = none ∧
    applyCaught room0 (RoomEventMsg.roomSidChanged "S1") =
      ({ room0 with firstSid := some "S1", info := { room0.info with sid := "S1" } }, []) ∧
    sidRead { room0 with firstSid := some "S1", info := { room0.info with sid := "S1" } } =
      some "S1" ∧
    applyCaught { room0 with firstSid := some "S1", info := { room0.info with sid := "S1" } }
        (RoomEventMsg.roomSidChanged "S2") =
      ({ { room0 with firstSid := some "S1", info := { room0.info with sid := "S1" } } with
          info := { { room0 with firstSid := some "S1", info := { room0.info with sid := "S1" } }.info with sid := "S2" } }, []) ∧
    onRoomEvent roomE (RoomEventMsg.roomSidChanged "X") =
      Except.error "InvalidStateError" ∧
    applyCaught roomE (RoomEventMsg.roomSidChanged "X") = (roomE, []) ∧
    (applyCaught roomF (RoomEventMsg.roomSidChanged "S9")).1.firstSid = some "S0" :=
  c7_sid_once room0 "S1"
    { room0 with firstSid := some "S1", info := { room0.info with sid := "S1" } } "S2"
    roomE "" "X" roomF "S0" (RoomEventMsg.roomSidChanged "S9")
    rfl rfl (by decide) (by decide) rfl rfl rfl

/-- Folding a duplicate-free delta whose keys are all absent from the map
appends the delta verbatim. -/
theorem dictUpdate_eq_append (l : List (String × String)) :
    ∀ m : List (String × String),
      (∀ kv ∈ l, aget m kv.1 = none) → (l.map Prod.fst).Nodup →
      dictUpdate m l = m ++ l := by
  induction l with
  | nil => intro m _ _; simp [dictUpdate]
  | cons kv rest ih =>
    intro m hdisj hnodup
    obtain ⟨k0, v0⟩ := kv
    simp only [List.map_cons, List.nodup_cons] at hnodup
    have hm0 : aget m k0 = none := hdisj (k0, v0) (List.mem_cons_self _ _)
    have hput : aput m k0 v0 = m ++ [(k0, v0)] := by
      unfold aput
      simp [hm0]
    have hstep : dictUpdate m ((k0, v0) :: rest) = dictUpdate (aput m k0 v0) rest := rfl
    rw [hstep, hput]
    rw [ih (m ++ [(k0, v0)]) ?_ hnodup.2]
    · simp
    · intro kv2 hmem
      have hne : kv2.1 ≠ k0 := by
        intro he
        exact hnodup.1 (he ▸ List.mem_map_of_mem Prod.fst hmem)
      have habs : aget m kv2.1 = none := hdisj kv2 (List.mem_cons_of_mem _ hmem)
      rw [aget_append_of_none _ habs]
      simp [aget, hne]

/-- Clearing a dict and updating it with a duplicate-free map copies that
map verbatim — the `clear()` + `update(attributes)` idiom. -/
theorem dictUpdate_nil_eq (l : List (String × String))
    (h : (l.map Prod.fst).Nodup) : dictUpdate [] l = l := by
  have := dictUpdate_eq_append l [] (fun kv _ => rfl) h
  simpa using this

/-- C8: a `participant_attributes_changed` event replaces the participant's
stored attribute map wholesale with exactly the full map carried by the
event, while the emitted notification carries only the changed-attributes
subset as reported by the event. -/
theorem c8_attributes_wholesale (room : Room) (identity : String)
    (attributes changedAttributes : List (String × String))
    (participant : ParticipantState)
    (hfind : retrieveParticipant room identity = some participant)
    (hnodup : (attributes.map Prod.fst).Nodup) :
    onRoomEvent room
        (RoomEventMsg.participantAttributesChanged identity attributes changedAttributes) =
      Except.ok
        (storeParticipant room identity { participant with info := { participant.info with attributes := attributes } },
          [Notification.participantAttributesChanged changedAttributes { participant with info := { participant.info with attributes := attributes } }]) := by
  have hdu : dictUpdate (dictClear participant.info.attributes) attributes = attributes := by
    have hclear : dictClear participant.info.attributes = [] := rfl
    rw [hclear, dictUpdate_nil_eq attributes hnodup]
  simp [onRoomEvent, hfind, hdu]

/-- C8 witness: full map `[a:1, b:2]`, changed subset `[b:2]`, applied to
"alice"; the stored attributes become exactly the full map and the
notification carries only the subset. -/
theorem c8_witness :
    onRoomEvent roomA
        (RoomEventMsg.participantAttributesChanged "alice"
          [("a", "1"), ("b", "2")] [("b", "2")]) =
      Except.ok
        (storeParticipant roomA "alice" { partA with info := { partA.info with attributes := [("a", "1"), ("b", "2")] } },
          [Notification.participantAttributesChanged [("b", "2")] { partA with info := { partA.info with attributes := [("a", "1"), ("b", "2")] } }]) :=
  c8_attributes_wholesale roomA "alice" [("a", "1"), ("b", "2")] [("b", "2")]
    partA (by decide) (by decide)

/-- The publication after the `track_subscribed` mutations: marked
subscribed with the freshly created track attached. -/
def subscribePub (pub : RemoteTrackPublication) (t : RemoteTrack) :
    RemoteTrackPublication :=
  { pub with subscribed := true, track := some t }

/-- The publication after the `track_unsubscribed` mutations: track
reference cleared and unsubscribed. -/
def unsubscribePub (pub : RemoteTrackPublication) : RemoteTrackPublication :=
  { pub with track := none, subscribed := false }

/-- A participant with one publication mutated in place. -/
def withPub (p : ParticipantState) (sid : String)
    (pub : RemoteTrackPublication) : ParticipantState :=
  { p with trackPublications := aset p.trackPublications sid pub }

/-- A room with one remote participant mutated in place. -/
def withRemote (room : Room) (identity : String) (p : ParticipantState) :
    Room :=
  { room with remoteParticipants := aset room.remoteParticipants identity p }

/-- The participant mirror after `track_subscribed` on one publication. -/
def rpAfterSub (rp : ParticipantState) (sid : String)
    (pub : RemoteTrackPublication) (t : RemoteTrack) : ParticipantState :=
  withPub rp sid (subscribePub pub t)

/-- The participant mirror after `track_subscribed` then
`track_unsubscribed` on the same publication. -/
def rpAfterUnsub (rp : ParticipantState) (sid : String)
    (pub : RemoteTrackPublication) (t : RemoteTrack) : ParticipantState :=
  withPub (rpAfterSub rp sid pub t) sid (unsubscribePub (subscribePub pub t))

/-- C6: `track_subscribed` (audio or video kind, witnessed by the created
track mirror `t`) followed by `track_unsubscribed` for the same publication
id leaves the publication unsubscribed with its track reference cleared,
while the unsubscribe notification carries the previously attached track
instance `some t`, not `none`. -/
theorem c6_subscribe_unsubscribe (room : Room) (identity : String)
    (owned : OwnedTrackInfo) (rparticipant : ParticipantState)
    (rpublication : RemoteTrackPublication) (t : RemoteTrack)
    (hp : aget room.remoteParticipants identity = some rparticipant)
    (hpub : aget rparticipant.trackPublications owned.info.sid = some rpublication)
    (ht : mkRemoteTrack owned = some t) :
    onRoomEvent room (RoomEventMsg.trackSubscribed identity owned) =
      Except.ok
        (withRemote room identity (rpAfterSub rparticipant owned.info.sid rpublication t),
          [Notification.trackSubscribed t (subscribePub rpublication t) (rpAfterSub rparticipant owned.info.sid rpublication t)]) ∧
    onRoomEvent (withRemote room identity (rpAfterSub rparticipant owned.info.sid rpublication t))
        (RoomEventMsg.trackUnsubscribed identity owned.info.sid) =
      Except.ok
        (withRemote (withRemote room identity (rpAfterSub rparticipant owned.info.sid rpublication t)) identity (rpAfterUnsub rparticipant owned.info.sid rpublication t),
          [Notification.trackUnsubscribed (some t) (unsubscribePub (subscribePub rpublication t)) (rpAfterUnsub rparticipant owned.info.sid rpublication t)]) ∧
    (unsubscribePub (subscribePub rpublication t)).subscribed = false ∧
    (unsubscribePub (subscribePub rpublication t)).track = none ∧
    aget (rpAfterUnsub rparticipant owned.info.sid rpublication t).trackPublications owned.info.sid =
      some (unsubscribePub (subscribePub rpublication t)) ∧
    aget (withRemote (withRemote room identity (rpAfterSub rparticipant owned.info.sid rpublication t)) identity (rpAfterUnsub rparticipant owned.info.sid rpublication t)).remoteParticipants identity =
      some (rpAfterUnsub rparticipant owned.info.sid rpublication t) := by
  have hp1 : (aget room.remoteParticipants identity).isSome := by simp [hp]
  have hp2 : (aget rparticipant.trackPublications owned.info.sid).isSome := by
    simp [hpub]
  have h1 : aget (withRemote room identity (rpAfterSub rparticipant owned.info.sid rpublication t)).remoteParticipants identity =
      some (rpAfterSub rparticipant owned.info.sid rpublication t) := by
    simpa [withRemote] using
      aget_aset_self (rpAfterSub rparticipant owned.info.sid rpublication t) hp1
  have h2 : aget (rpAfterSub rparticipant owned.info.sid rpublication t).trackPublications owned.info.sid =
      some (subscribePub rpublication t) := by
    simpa [rpAfterSub, withPub] using
      aget_aset_self (subscribePub rpublication t) hp2
  have hp5 : (aget (rpAfterSub rparticipant owned.info.sid rpublication t).trackPublications owned.info.sid).isSome := by
    simp [h2]
  have hp6 : (aget (withRemote room identity (rpAfterSub rparticipant owned.info.sid rpublication t)).remoteParticipants identity).isSome := by
    simp [h1]
  have h5 : aget (rpAfterUnsub rparticipant owned.info.sid rpublication t).trackPublications owned.info.sid =
      some (unsubscribePub (subscribePub rpublication t)) := by
    simpa [rpAfterUnsub, withPub] using
      aget_aset_self (unsubscribePub (subscribePub rpublication t)) hp5
  have h6 : aget (withRemote (withRemote room identity (rpAfterSub rparticipant owned.info.sid rpublication t)) identity (rpAfterUnsub rparticipant owned.info.sid rpublication t)).remoteParticipants identity =
      some (rpAfterUnsub rparticipant owned.info.sid rpublication t) := by
    simpa [withRemote] using
      aget_aset_self (rpAfterUnsub rparticipant owned.info.sid rpublication t) hp6
  have hunsub :
      onRoomEvent (withRemote room identity (rpAfterSub rparticipant owned.info.sid rpublication t))
        (RoomEventMsg.trackUnsubscribed identity owned.info.sid) =
      Except.ok
        (withRemote (withRemote room identity (rpAfterSub rparticipant owned.info.sid rpublication t)) identity (rpAfterUnsub rparticipant owned.info.sid rpublication t),
          [Notification.trackUnsubscribed (some t) (unsubscribePub (subscribePub rpublication t)) (rpAfterUnsub rparticipant owned.info.sid rpublication t)]) := by
    simp only [onRoomEvent, h1, h2]
    simp [withRemote, withPub, unsubscribePub, rpAfterUnsub, rpAfterSub, subscribePub]
  cases hkd : owned.info.kind with
  | unknown => simp [mkRemoteTrack, hkd] at ht
  | audio =>
    have htt : t = RemoteTrack.audio owned := by
      simp [mkRemoteTrack, hkd] at ht
      exact ht.symm
    subst htt
    refine ⟨?_, hunsub, rfl, rfl, h5, h6⟩
    simp [onRoomEvent, hp, hpub, hkd, withRemote, withPub, subscribePub, rpAfterSub]
  | video =>
    have htt : t = RemoteTrack.video owned := by
      simp [mkRemoteTrack, hkd] at ht
      exact ht.symm
    subst htt
    refine ⟨?_, hunsub, rfl, rfl, h5, h6⟩
    simp [onRoomEvent, hp, hpub, hkd, withRemote, withPub, subscribePub, rpAfterSub]

/-- A concrete owned audio track for publication "t1". -/
def ownedA : OwnedTrackInfo :=
  { handleId := 7, info := { sid := "t1", kind := TrackKind.audio, muted := false } }

/-- C6 witness: subscribe then unsubscribe "alice"'s publication "t1" with a
concrete audio track. -/
theorem c6_witness :
    onRoomEvent roomA (RoomEventMsg.trackSubscribed "alice" ownedA) =
      Except.ok
        (withRemote roomA "alice" (rpAfterSub partA ownedA.info.sid pubT1 (RemoteTrack.audio ownedA)),
          [Notification.trackSubscribed (RemoteTrack.audio ownedA) (subscribePub pubT1 (RemoteTrack.audio ownedA)) (rpAfterSub partA ownedA.info.sid pubT1 (RemoteTrack.audio ownedA))]) ∧
    onRoomEvent (withRemote roomA "alice" (rpAfterSub partA ownedA.info.sid pubT1 (RemoteTrack.audio ownedA)))
        (RoomEventMsg.trackUnsubscribed "alice" ownedA.info.sid) =
      Except.ok
        (withRemote (withRemote roomA "alice" (rpAfterSub partA ownedA.info.sid pubT1 (RemoteTrack.audio ownedA))) "alice" (rpAfterUnsub partA ownedA.info.sid pubT1 (RemoteTrack.audio ownedA)),
          [Notification.trackUnsubscribed (some (RemoteTrack.audio ownedA)) (unsubscribePub (subscribePub pubT1 (RemoteTrack.audio ownedA))) (rpAfterUnsub partA ownedA.info.sid pubT1 (RemoteTrack.audio ownedA))]) ∧
    (unsubscribePub (subscribePub pubT1 (RemoteTrack.audio ownedA))).subscribed = false ∧
    (unsubscribePub (subscribePub pubT1 (RemoteTrack.audio ownedA))).track = none ∧
    aget (rpAfterUnsub partA ownedA.info.sid pubT1 (RemoteTrack.audio ownedA)).trackPublications ownedA.info.sid =
      some (unsubscribePub (subscribePub pubT1 (RemoteTrack.audio ownedA))) ∧
    aget (withRemote (withRemote roomA "alice" (rpAfterSub partA ownedA.info.sid pubT1 (RemoteTrack.audio ownedA))) "alice" (rpAfterUnsub partA ownedA.info.sid pubT1 (RemoteTrack.audio ownedA))).remoteParticipants "alice" =
      some (rpAfterUnsub partA ownedA.info.sid pubT1 (RemoteTrack.audio ownedA)) :=
  c6_subscribe_unsubscribe roomA "alice" ownedA partA pubT1
    (RemoteTrack.audio ownedA) (by decide) (by decide) (by decide)

/-- The dispatch loop's roster evolution agrees with the spec replay on any
roster-event sequence that never connects an already-present identity: the
handler appends exactly where the replay inserts, removes exactly where the
replay removes, and a disconnect of an absent identity raises (caught, no
change) exactly where the replay's removal is vacuous. -/
theorem roster_replay_aux :
    ∀ (events : List RoomEventMsg) (room : Room),
      events.all isRosterEvent = true →
      rosterAdmissible room.remoteParticipants events = true →
      (events.foldl (fun r e => (applyCaught r e).1) room).remoteParticipants =
        specReplay room.remoteParticipants events := by
  intro events
  induction events with
  | nil => intro room _ _; simp [specReplay]
  | cons event rest ih =>
    intro room hkinds hadm
    simp only [List.all_cons, Bool.and_eq_true] at hkinds
    cases event with
    | participantConnected info =>
      simp only [rosterAdmissible, Bool.and_eq_true, Option.isNone_iff_eq_none] at hadm
      obtain ⟨hfresh, hadm2⟩ := hadm
      have hdup : (aget room.remoteParticipants info.identity).isSome = false := by
        simp [hfresh]
      have hstep : applyCaught room (RoomEventMsg.participantConnected info) =
          ({ room with remoteParticipants := aput room.remoteParticipants info.identity { info := info, trackPublications := [] } },
            [Notification.participantConnected { info := info, trackPublications := [] }]) := by
        simp [applyCaught, onRoomEvent, createRemoteParticipant, hdup]
      have hspec : specReplayStep room.remoteParticipants (RoomEventMsg.participantConnected info) =
          aput room.remoteParticipants info.identity { info := info, trackPublications := [] } := rfl
      have hmain := ih
        { room with remoteParticipants := aput room.remoteParticipants info.identity { info := info, trackPublications := [] } }
        hkinds.2 (by simpa [hspec] using hadm2)
      simp only [List.foldl_cons, hstep]
      simpa [specReplay, hspec] using hmain
    | participantDisconnected identity =>
      simp only [rosterAdmissible] at hadm
      cases hq : aget room.remoteParticipants identity with
      | some p =>
        have hstep : applyCaught room (RoomEventMsg.participantDisconnected identity) =
            ({ room with remoteParticipants := adrop room.remoteParticipants identity },
              [Notification.participantDisconnected p]) := by
          simp [applyCaught, onRoomEvent, hq]
        have hspec : specReplayStep room.remoteParticipants (RoomEventMsg.participantDisconnected identity) =
            adrop room.remoteParticipants identity := rfl
        have hmain := ih
          { room with remoteParticipants := adrop room.remoteParticipants identity }
          hkinds.2 (by simpa [hspec] using hadm)
        simp only [List.foldl_cons, hstep]
        simpa [specReplay, hspec] using hmain
      | none =>
        have hstep : applyCaught room (RoomEventMsg.participantDisconnected identity) =
            (room, []) := by
          simp [applyCaught, onRoomEvent, hq]
        have hvac : adrop room.remoteParticipants identity = room.remoteParticipants :=
          adrop_of_aget_none hq
        have hspec : specReplayStep room.remoteParticipants (RoomEventMsg.participantDisconnected identity) =
            room.remoteParticipants := by
          simpa [specReplayStep] using hvac
        have hmain := ih room hkinds.2 (by simpa [hspec] using hadm)
        simp only [List.foldl_cons, hstep]
        simpa [specReplay, hspec] using hmain
    | trackSubscribed identity owned => simp [isRosterEvent] at hkinds
    | trackUnsubscribed identity tsid => simp [isRosterEvent] at hkinds
    | roomMetadataChanged md => simp [isRosterEvent] at hkinds
    | roomSidChanged s => simp [isRosterEvent] at hkinds
    | participantAttributesChanged identity attrs changed =>
      simp [isRosterEvent] at hkinds
    | eos => simp [isRosterEvent] at hkinds

/-- C5 counterexample: two `participant_connected` events for the same
identity with different payloads.  The loop's map keeps the FIRST mirror
(the duplicate raises, caught, no mutation) while the replay that "inserts
a new mirror keyed by identity" ends with the SECOND mirror, so the claim's
for-every-sequence map equality fails. -/
theorem c5_counterexample :
    (applyAll room0 [RoomEventMsg.participantConnected infoA1,
        RoomEventMsg.participantConnected infoA2]).1.remoteParticipants ≠
      specReplay room0.remoteParticipants
        [RoomEventMsg.participantConnected infoA1,
         RoomEventMsg.participantConnected infoA2] := by
  decide

/-- C5 (amended): for every sequence of `participant_connected` and
`participant_disconnected` events in which no connect duplicates an
identity present at the moment it is applied, the remote-participant map
after the dispatch loop equals the spec replay of the sequence from the
initial roster; and every `participant_disconnected` whose identity is
present removes that mirror and delivers the removed mirror to the
notification. -/
theorem c5_roster_replay (room : Room) (events : List RoomEventMsg)
    (r : Room) (identity : String) (p : ParticipantState)
    (hkinds : events.all isRosterEvent = true)
    (hadm : rosterAdmissible room.remoteParticipants events = true)
    (hlook : aget r.remoteParticipants identity = some p) :
    (applyAll room events).1.remoteParticipants =
      specReplay room.remoteParticipants events ∧
    onRoomEvent r (RoomEventMsg.participantDisconnected identity) =
      Except.ok
        ({ r with remoteParticipants := adrop r.remoteParticipants identity },
          [Notification.participantDisconnected p]) := by
  constructor
  · rw [applyAll_fst]
    exact roster_replay_aux events room hkinds hadm
  · simp [onRoomEvent, hlook]

/-- C5 witness: connect "alice" and "bob", then disconnect "alice";
evaluated together with a concrete present-identity disconnect. -/
theorem c5_witness :
    (applyAll room0 [RoomEventMsg.participantConnected infoA1,
        RoomEventMsg.participantConnected infoB,
        RoomEventMsg.participantDisconnected "alice"]).1.remoteParticipants =
      specReplay room0.remoteParticipants
        [RoomEventMsg.participantConnected infoA1,
         RoomEventMsg.participantConnected infoB,
         RoomEventMsg.participantDisconnected "alice"] ∧
    onRoomEvent roomA (RoomEventMsg.participantDisconnected "alice") =
      Except.ok
        ({ roomA with remoteParticipants := adrop roomA.remoteParticipants "alice" },
          [Notification.participantDisconnected partA]) :=
  c5_roster_replay room0
    [RoomEventMsg.participantConnected infoA1,
     RoomEventMsg.participantConnected infoB,
     RoomEventMsg.participantDisconnected "alice"]
    roomA "alice" partA (by decide) (by decide) (by decide)

end LivekitRoom
